import Mathlib

/-!
Shallow embedding of `certbot_dns_dreamhost/cert/client.py`
(class `Authenticator`, methods `_perform` and `_cleanup`), together with
models of the library behaviour the code depends on:

* Python `str.replace("*", "")` (removes every `*` character);
* `dns.resolver.canonical_name` as an oracle `String → DnsOutcome`; on
  success it yields a DNS name whose `to_text()` renders with a trailing
  root dot, while `NoAnswer` / `NXDOMAIN` are caught by the code and any
  other failure propagates.  On the caught branch the code assigns the
  plain Python *string* to `canonical_name`, so the subsequent
  `canonical_name.to_text()` call is modelled faithfully as raising
  `AttributeError` for that branch;
* `tldextract.extract`: strip trailing dots from the hostname
  (`lenient_netloc`), split on `.`, find the longest public-suffix match,
  and return `(subdomain, domain, suffix)`;
* the Python `dict` `record_ids_to_root_domain` as an association list
  whose insertion overwrites an existing key in place.

Provider calls (`client.dns.add_record` / `remove_record`) are oracles and
every call made is recorded in a trace, so counting and ordering of
provider calls can be stated.
-/

deriving instance DecidableEq for Except

/-- Python exception values that can escape `_perform` / `_cleanup`. -/
inductive PyExc where
  /-- `KeyError` from a missing `dict` key (`record_ids_to_root_domain[validation]`). -/
  | keyError (key : String)
  /-- `AttributeError`: object of type `obj` has no attribute `attr`. -/
  | attributeError (obj attr : String)
  /-- An error raised by the provider API client. -/
  | providerError (msg : String)
  /-- A DNS resolution failure other than `NoAnswer` / `NXDOMAIN` (e.g. timeout). -/
  | dnsFailure (msg : String)
  /-- `certbot.errors.PluginError(e)` wrapping a caught exception. -/
  | pluginError (cause : PyExc)
  /-- `certbot.errors.PluginError(msg)` built from a message string. -/
  | pluginErrorMsg (msg : String)
  deriving Repr, DecidableEq

/-- Outcome of `dns.resolver.canonical_name(domain)`, as an oracle answer:
either a canonical DNS name (given as text without the trailing root dot),
one of the two no-data outcomes the code catches, or another failure. -/
inductive DnsOutcome where
  | canonical (nm : String)
  | noAnswer
  | nxdomain
  | failure (e : PyExc)
  deriving Repr, DecidableEq

/-- The Python value held by the local variable `canonical_name` after the
`try/except` in `_perform`: a `dns.name.Name` on success, or the plain
`str` the code falls back to on `NoAnswer` / `NXDOMAIN`. -/
inductive CanonicalName where
  | dnsName (nm : String)
  | pyStr (s : String)
  deriving Repr, DecidableEq

/-- `canonical_name.to_text()`.  A `dns.name.Name` returned by the resolver
is absolute, so `to_text()` renders it with the trailing root dot; a plain
Python string has no `to_text` attribute and raises `AttributeError`. -/
def toText : CanonicalName → Except PyExc String
  | .dnsName nm => .ok (nm ++ ".")
  | .pyStr _ => .error (.attributeError "str" "to_text")

/-- Python `s.replace("*", "")`: remove every `*` character. -/
def pyReplaceStar (s : String) : String :=
  String.mk (s.toList.filter (fun c => c ≠ '*'))

/-- The challenge name built at lines 97–98 of `client.py`:
`domain.replace("*", "")` then `f"_acme-challenge.{domain}"`. -/
def challengeName (domain : String) : String :=
  "_acme-challenge." ++ pyReplaceStar domain

/-- Split a character list on `.` (Python `str.split(".")` on the
underlying characters); never returns `[]`. -/
def splitDotsList : List Char → List (List Char)
  | [] => [[]]
  | c :: cs =>
    if c = '.' then [] :: splitDotsList cs
    else
      match splitDotsList cs with
      | [] => [[c]]
      | l :: ls => (c :: l) :: ls

/-- Python `s.split(".")`. -/
def splitDots (s : String) : List String :=
  (splitDotsList s.toList).map String.mk

/-- Python `".".join(labels)`. -/
def joinDots : List String → String
  | [] => ""
  | [s] => s
  | s :: rest => s ++ "." ++ joinDots rest

/-- `tldextract.lenient_netloc` restricted to plain host-name inputs:
strip trailing root-label dots. -/
def lenientNetloc (s : String) : String :=
  String.mk ((s.toList.reverse.dropWhile (fun c => c = '.')).reverse)

/-- Index of the first label of the longest public-suffix match among
`labels`, or `labels.length` when no suffix in `psl` matches
(`tldextract`'s `suffix_index` over an explicit suffix list). -/
def suffixIndex (psl : List String) (labels : List String) : Nat :=
  match (List.range labels.length).find? (fun i => psl.contains (joinDots (labels.drop i))) with
  | some i => i
  | none => labels.length

/-- Result of `tldextract.extract`. -/
structure ExtractResult where
  subdomain : String
  domain : String
  suffix : String
  deriving Repr, DecidableEq

/-- `tldextract.extract(url)` over an explicit public-suffix list `psl`. -/
def tldexExtract (psl : List String) (url : String) : ExtractResult :=
  let labels := splitDots (lenientNetloc url)
  let k := suffixIndex psl labels
  { subdomain := if 2 ≤ k then joinDots (labels.take (k - 1)) else ""
    domain := if k ≠ 0 then labels.getD (k - 1) "" else ""
    suffix := if k ≠ labels.length then joinDots (labels.drop k) else "" }

/-- Lines 106–108 of `client.py`: extract the canonical name's parts and
build `root_domain = f"{domain}.{suffix}"` and `name = subdomain`,
returned as `(root_domain, name)` — the `(zone, relativeName)` pair. -/
def resolveZoneRelative (psl : List String) (canonText : String) : String × String :=
  let er := tldexExtract psl canonText
  (er.domain ++ "." ++ er.suffix, er.subdomain)

/-- A provider record identifier (opaque handle returned by `add_record`). -/
abbrev RecordId := Nat

/-- The Python `dict` `record_ids_to_root_domain`: validation value ↦
`(record_id, root_domain)`, modelled as an association list where
insertion overwrites an existing key in place. -/
abbrev Dict := List (String × RecordId × String)

/-- Python `d[k]` lookup (first, and with unique keys only, binding). -/
def dictLookup (d : Dict) (k : String) : Option (RecordId × String) :=
  match d with
  | [] => none
  | (k', v) :: rest => if k' = k then some v else dictLookup rest k

/-- Python `d[k] = v`: overwrite an existing binding in place, else append. -/
def dictInsert (d : Dict) (k : String) (v : RecordId × String) : Dict :=
  match d with
  | [] => [(k, v)]
  | (k', v') :: rest => if k' = k then (k, v) :: rest else (k', v') :: dictInsert rest k v

/-- One call made to the DreamHost provider API. -/
inductive PCall where
  | add (record recType value : String)
  | remove (record recType value : String)
  deriving Repr, DecidableEq

/-- The provider API surface used by the code, as oracles. -/
structure Provider where
  addRecord : String → String → String → Except PyExc RecordId
  removeRecord : String → String → String → Except PyExc Bool

/-- The environment `_perform` / `_cleanup` run against: the DNS resolver
and the provider client. -/
structure Env where
  dns : String → DnsOutcome
  provider : Provider

/-- The warning text logged when the configured propagation time is below
the DreamHost minimum TTL. -/
def ttlWarning : String :=
  "The propagation time is less than Dreamhost DNS TTL minimum of 600 seconds."

/-- Result of one `_perform` call: the Python outcome (normal return or
escaped exception), the updated tracking dict, the provider calls made,
and the warnings logged. -/
structure PerformOut where
  result : Except PyExc Unit
  state : Dict
  calls : List PCall
  warnings : List String
  deriving Repr, DecidableEq

/-- `Authenticator._perform(domain, validation_name, validation)`
(lines 74–119 of `client.py`), over environment `env`, public-suffix list
`psl`, configured `propagation_seconds`, and tracking state `st`. -/
def _perform (env : Env) (psl : List String) (propagationSeconds : Int)
    (st : Dict) (domain _validationName validation : String) : PerformOut :=
  let w := if propagationSeconds < 600 then [ttlWarning] else []
  let dom := challengeName domain
  let canon : Except PyExc CanonicalName :=
    match env.dns dom with
    | .canonical nm => .ok (.dnsName nm)
    | .noAnswer => .ok (.pyStr dom)
    | .nxdomain => .ok (.pyStr dom)
    | .failure e => .error e
  match canon with
  | .error e => ⟨.error e, st, [], w⟩
  | .ok cn =>
    match toText cn with
    | .error e => ⟨.error e, st, [], w⟩
    | .ok txt =>
      let zr := resolveZoneRelative psl txt
      let record := zr.2 ++ "." ++ zr.1
      match env.provider.addRecord record "TXT" validation with
      | .ok rid => ⟨.ok (), dictInsert st validation (rid, zr.1), [.add record "TXT" validation], w⟩
      | .error e => ⟨.error (.pluginError e), st, [.add record "TXT" validation], w⟩

/-- Result of one `_cleanup` call. -/
structure CleanupOut where
  result : Except PyExc Unit
  state : Dict
  calls : List PCall
  deriving Repr, DecidableEq

/-- `Authenticator._cleanup(domain, validation_name, validation)`
(lines 121–144 of `client.py`).  The dict subscripts at lines 133–134 run
before the `try`, so a missing key raises a bare `KeyError`; inside the
`try`, a `False` from `remove_record` raises
`PluginError("TXT for domain {domain} was not deleted")`, which the
`except Exception` clause immediately re-wraps in another `PluginError`;
an exception from `remove_record` is wrapped once.  The dict is never
mutated. -/
def _cleanup (env : Env) (st : Dict) (domain _validationName validation : String) : CleanupOut :=
  match dictLookup st validation with
  | none => ⟨.error (.keyError validation), st, []⟩
  | some (_recordId, rootDomain) =>
    match env.provider.removeRecord rootDomain "TXT" validation with
    | .ok true => ⟨.ok (), st, [.remove rootDomain "TXT" validation]⟩
    | .ok false =>
      ⟨.error (.pluginError (.pluginErrorMsg ("TXT for domain " ++ domain ++ " was not deleted"))),
        st, [.remove rootDomain "TXT" validation]⟩
    | .error e => ⟨.error (.pluginError e), st, [.remove rootDomain "TXT" validation]⟩

/-- A small concrete public-suffix list used for concrete evaluations. -/
def pslFixture : List String := ["com", "net", "org", "uk", "co.uk"]

/-- A provider whose calls always succeed, returning record id 7. -/
def provAlwaysOk : Provider :=
  { addRecord := fun _ _ _ => .ok 7
    removeRecord := fun _ _ _ => .ok true }

/-- An environment where DNS reports every queried name as already
canonical and the provider always succeeds. -/
def envIdent : Env :=
  { dns := fun s => .canonical s
    provider := provAlwaysOk }

/-- An environment whose DNS resolution reports `NXDOMAIN` for every name. -/
def envNxdomain : Env :=
  { dns := fun _ => .nxdomain
    provider := provAlwaysOk }

/-- An environment whose DNS resolution reports `NoAnswer` for every name. -/
def envNoAnswer : Env :=
  { dns := fun _ => .noAnswer
    provider := provAlwaysOk }

/-- An environment whose DNS resolution fails with a transport error. -/
def envTimeout : Env :=
  { dns := fun _ => .failure (.dnsFailure "timeout")
    provider := provAlwaysOk }

/-- A provider whose `add_record` always raises. -/
def provAddFails : Provider :=
  { addRecord := fun _ _ _ => .error (.providerError "rate limit")
    removeRecord := fun _ _ _ => .ok true }

/-- An environment with identity DNS and a failing `add_record`. -/
def envAddFails : Env :=
  { dns := fun s => .canonical s
    provider := provAddFails }

/-! ### Helper lemmas about the split / join of dot-separated labels -/

/-- Character-level counterpart of `joinDots`. -/
def joinDotsChars : List (List Char) → List Char
  | [] => []
  | [a] => a
  | a :: b :: rest => a ++ '.' :: joinDotsChars (b :: rest)

theorem splitDotsList_ne_nil (l : List Char) : splitDotsList l ≠ [] := by
  cases l with
  | nil => simp [splitDotsList]
  | cons c cs =>
    simp only [splitDotsList]
    split
    · simp
    · split <;> simp

theorem joinDotsChars_splitDotsList (l : List Char) :
    joinDotsChars (splitDotsList l) = l := by
  induction l with
  | nil => rfl
  | cons c cs ih =>
    by_cases hc : c = '.'
    · subst hc
      simp only [splitDotsList, if_pos rfl]
      obtain ⟨r, rs, hr⟩ : ∃ r rs, splitDotsList cs = r :: rs := by
        cases h : splitDotsList cs with
        | nil => exact absurd h (splitDotsList_ne_nil cs)
        | cons r rs => exact ⟨r, rs, rfl⟩
      rw [hr]
      rw [hr] at ih
      show [] ++ '.' :: joinDotsChars (r :: rs) = '.' :: cs
      rw [List.nil_append, ih]
    · simp only [splitDotsList, if_neg hc]
      cases h : splitDotsList cs with
      | nil => exact absurd h (splitDotsList_ne_nil cs)
      | cons r rs =>
        rw [h] at ih
        cases rs with
        | nil =>
          show c :: r = c :: cs
          have hr : r = cs := ih
          rw [hr]
        | cons r2 rs2 =>
          show (c :: r) ++ '.' :: joinDotsChars (r2 :: rs2) = c :: cs
          have ih2 : r ++ '.' :: joinDotsChars (r2 :: rs2) = cs := ih
          rw [List.cons_append, ih2]

theorem joinDots_map_mk (ll : List (List Char)) :
    joinDots (ll.map String.mk) = String.mk (joinDotsChars ll) := by
  induction ll with
  | nil => rfl
  | cons a tl ih =>
    cases tl with
    | nil => rfl
    | cons b rest =>
      show String.mk a ++ "." ++ joinDots ((b :: rest).map String.mk) =
        String.mk (a ++ '.' :: joinDotsChars (b :: rest))
      rw [ih]
      have h : String.mk a ++ "." ++ String.mk (joinDotsChars (b :: rest)) =
          String.mk ((a ++ ['.']) ++ joinDotsChars (b :: rest)) := rfl
      rw [h, List.append_assoc]
      rfl

theorem joinDots_splitDots (s : String) : joinDots (splitDots s) = s := by
  unfold splitDots
  rw [joinDots_map_mk, joinDotsChars_splitDotsList]
  rfl

theorem joinDots_append : ∀ (a : List String), a ≠ [] → ∀ (b : List String), b ≠ [] →
    joinDots (a ++ b) = joinDots a ++ "." ++ joinDots b
  | [], ha, _, _ => absurd rfl ha
  | [x], _, b, hb => by
    cases b with
    | nil => exact absurd rfl hb
    | cons y ys => rfl
  | x :: z :: zs, _, b, hb => by
    have ih := joinDots_append (z :: zs) (by simp) b hb
    have h1 : joinDots ((x :: z :: zs) ++ b) = x ++ "." ++ joinDots ((z :: zs) ++ b) := rfl
    have h2 : joinDots (x :: z :: zs) = x ++ "." ++ joinDots (z :: zs) := rfl
    rw [h1, ih, h2]
    simp only [String.append_assoc]

theorem joinDots_take_getD_drop (ls : List String) (k : Nat) (h2 : 2 ≤ k)
    (hk : k < ls.length) :
    joinDots (ls.take (k - 1)) ++ "." ++
      (ls.getD (k - 1) "" ++ "." ++ joinDots (ls.drop k)) = joinDots ls := by
  have hk1 : k - 1 < ls.length := lt_of_le_of_lt (Nat.sub_le k 1) hk
  have hsucc : k - 1 + 1 = k := Nat.sub_add_cancel (le_trans (by norm_num) h2)
  have hdrop : ls.drop (k - 1) = ls[k - 1] :: ls.drop k := by
    rw [List.drop_eq_getElem_cons hk1, hsucc]
  have htake_ne : ls.take (k - 1) ≠ [] := by
    apply List.ne_nil_of_length_pos
    rw [List.length_take]
    omega
  have hdropk_ne : ls.drop k ≠ [] := by
    apply List.ne_nil_of_length_pos
    rw [List.length_drop]
    omega
  have hdrop_ne : ls.drop (k - 1) ≠ [] := by rw [hdrop]; simp
  calc joinDots (ls.take (k - 1)) ++ "." ++
        (ls.getD (k - 1) "" ++ "." ++ joinDots (ls.drop k))
      = joinDots (ls.take (k - 1)) ++ "." ++
        (ls[k - 1] ++ "." ++ joinDots (ls.drop k)) := by
        rw [List.getD_eq_getElem ls "" hk1]
    _ = joinDots (ls.take (k - 1)) ++ "." ++ joinDots (ls[k - 1] :: ls.drop k) := by
        cases hd : ls.drop k with
        | nil => exact absurd hd hdropk_ne
        | cons w ws => rfl
    _ = joinDots (ls.take (k - 1)) ++ "." ++ joinDots (ls.drop (k - 1)) := by rw [hdrop]
    _ = joinDots (ls.take (k - 1) ++ ls.drop (k - 1)) :=
        (joinDots_append _ htake_ne _ hdrop_ne).symm
    _ = joinDots ls := by rw [List.take_append_drop]

theorem lenientNetloc_append_dot (s : String) :
    lenientNetloc (s ++ ".") = lenientNetloc s := by
  unfold lenientNetloc
  have h : (s ++ ".").toList = s.toList ++ ['.'] := rfl
  rw [h, List.reverse_append]
  simp [List.dropWhile]

/-! ### Helper lemmas about the tracking dict -/

theorem dictLookup_insert_self (st : Dict) (k : String) (v : RecordId × String) :
    dictLookup (dictInsert st k v) k = some v := by
  induction st with
  | nil => simp [dictInsert, dictLookup]
  | cons p rest ih =>
    obtain ⟨k', v'⟩ := p
    by_cases h : k' = k
    · simp [dictInsert, dictLookup, h]
    · simp [dictInsert, dictLookup, h, ih]

theorem mem_keys_dictInsert (st : Dict) (k : String) (v : RecordId × String) (a : String) :
    a ∈ (dictInsert st k v).map (fun p => p.1) ↔
      a ∈ st.map (fun p => p.1) ∨ a = k := by
  induction st with
  | nil => simp [dictInsert]
  | cons p rest ih =>
    obtain ⟨k', v'⟩ := p
    by_cases h : k' = k
    · subst h
      rw [show dictInsert ((k', v') :: rest) k' v = (k', v) :: rest from by
        simp [dictInsert]]
      simp only [List.map_cons, List.mem_cons]
      tauto
    · rw [show dictInsert ((k', v') :: rest) k v = (k', v') :: dictInsert rest k v from by
        simp [dictInsert, h]]
      simp only [List.map_cons, List.mem_cons, ih]
      tauto

theorem dictInsert_keys_nodup (st : Dict) (k : String) (v : RecordId × String)
    (h : (st.map (fun p => p.1)).Nodup) :
    ((dictInsert st k v).map (fun p => p.1)).Nodup := by
  induction st with
  | nil => simp [dictInsert]
  | cons p rest ih =>
    obtain ⟨k', v'⟩ := p
    simp only [List.map_cons, List.nodup_cons] at h
    by_cases hk : k' = k
    · subst hk
      rw [show dictInsert ((k', v') :: rest) k' v = (k', v) :: rest from by
        simp [dictInsert]]
      simp only [List.map_cons, List.nodup_cons]
      exact h
    · rw [show dictInsert ((k', v') :: rest) k v = (k', v') :: dictInsert rest k v from by
        simp [dictInsert, hk]]
      simp only [List.map_cons, List.nodup_cons]
      refine ⟨?_, ih h.2⟩
      intro hmem
      rcases (mem_keys_dictInsert rest k v k').mp hmem with hm | he
      · exact h.1 hm
      · exact hk he

theorem dictInsert_length_of_mem (st : Dict) (k : String) (v w : RecordId × String)
    (h : dictLookup st k = some w) :
    (dictInsert st k v).length = st.length := by
  induction st with
  | nil => simp [dictLookup] at h
  | cons p rest ih =>
    obtain ⟨k', v'⟩ := p
    by_cases hk : k' = k
    · simp [dictInsert, hk]
    · simp only [dictLookup, if_neg hk] at h
      simp [dictInsert, hk, ih h]

/-! ### Claim theorems -/

/-- Claim C1, counterexample: with a tracked entry for `"tokenABC"` and a
provider delete that succeeds, `_cleanup` returns successfully yet the
entry keyed by the validation value is still present in the tracking map —
refuting the claim that the entry is removed after `Cleanup`. -/
theorem C1_counterexample :
    (_cleanup envIdent [("tokenABC", 7, "example.com")] "example.com"
        "_acme-challenge.example.com" "tokenABC").result = .ok () ∧
    (_cleanup envIdent [("tokenABC", 7, "example.com")] "example.com"
        "_acme-challenge.example.com" "tokenABC").state =
      [("tokenABC", 7, "example.com")] ∧
    dictLookup (_cleanup envIdent [("tokenABC", 7, "example.com")] "example.com"
        "_acme-challenge.example.com" "tokenABC").state "tokenABC" =
      some (7, "example.com") := by
  decide

/-- Claim C1, amended: after `_cleanup` returns or raises, the tracking map
is unchanged — the `ChallengeRecord` entry keyed by the validation value is
never removed, whatever the delete outcome (`client.py` has no deletion
from `record_ids_to_root_domain`). -/
theorem C1_cleanup_state_unchanged (env : Env) (st : Dict)
    (domain validationName validation : String) :
    (_cleanup env st domain validationName validation).state = st := by
  unfold _cleanup
  split
  · rfl
  · split <;> rfl

/-- Claim C2, code evaluation: `_perform` replaces only the `*` character
of a wildcard domain, leaving the following dot, so `"*.example.com"`
yields the challenge name `"_acme-challenge..example.com"` (with an empty
label) and the resolved `(zone, relativeName)` pair
`("example.com", "_acme-challenge.")`, which differs from the pair
`("example.com", "_acme-challenge")` obtained for `"example.com"`; the
provider create call is made against a different record name. -/
theorem C2_wildcard_replacement_differs :
    challengeName "*.example.com" = "_acme-challenge..example.com" ∧
    challengeName "example.com" = "_acme-challenge.example.com" ∧
    resolveZoneRelative pslFixture (challengeName "*.example.com" ++ ".") =
      ("example.com", "_acme-challenge.") ∧
    resolveZoneRelative pslFixture (challengeName "example.com" ++ ".") =
      ("example.com", "_acme-challenge") ∧
    (_perform envIdent pslFixture 600 [] "*.example.com"
        "_acme-challenge.example.com" "tok").calls =
      [.add "_acme-challenge..example.com" "TXT" "tok"] ∧
    (_perform envIdent pslFixture 600 [] "example.com"
        "_acme-challenge.example.com" "tok").calls =
      [.add "_acme-challenge.example.com" "TXT" "tok"] := by
  decide

/-- Claim C3: `_cleanup` called with a validation value that has no tracked
record raises a `KeyError` for that value — an explicit error, not silent
success — and issues no provider call (the dict subscript runs before the
provider client is even constructed). -/
theorem C3_cleanup_without_perform (env : Env) (st : Dict)
    (domain validationName validation : String)
    (h : dictLookup st validation = none) :
    _cleanup env st domain validationName validation =
      ⟨.error (.keyError validation), st, []⟩ := by
  unfold _cleanup
  rw [h]

/-- Witness for C3 at the empty tracking state. -/
theorem C3_witness :
    dictLookup [] "tokenABC" = none ∧
    _cleanup envIdent [] "example.com" "_acme-challenge.example.com" "tokenABC" =
      ⟨.error (.keyError "tokenABC"), [], []⟩ :=
  ⟨rfl, C3_cleanup_without_perform envIdent [] "example.com"
    "_acme-challenge.example.com" "tokenABC" rfl⟩

/-- Claim C5, code evaluation: when DNS canonical-name resolution reports
`NXDOMAIN` or `NoAnswer`, `_perform` does not proceed with the queried
name: the fallback assigns the Python *string* to `canonical_name`, and
the subsequent `canonical_name.to_text()` raises `AttributeError`, so the
run fails before any provider call.  Any other DNS failure propagates to
the caller unwrapped, as the claim states. -/
theorem C5_dns_fallback_crashes :
    (_perform envNxdomain pslFixture 600 [] "example.com"
        "_acme-challenge.example.com" "tok") =
      ⟨.error (.attributeError "str" "to_text"), [], [], []⟩ ∧
    (_perform envNoAnswer pslFixture 600 [] "example.com"
        "_acme-challenge.example.com" "tok") =
      ⟨.error (.attributeError "str" "to_text"), [], [], []⟩ ∧
    (_perform envTimeout pslFixture 600 [] "example.com"
        "_acme-challenge.example.com" "tok") =
      ⟨.error (.dnsFailure "timeout"), [], [], []⟩ := by
  decide

/-- Claim C8: the configured propagation wait influences only the warning
diagnostic.  Two `_perform` runs differing only in `propagation_seconds`
produce the same result, the same tracking state and the same provider
calls; the warning is emitted exactly when the value is below 600. -/
theorem C8_propagation_seconds_only_warning (env : Env) (psl : List String)
    (ps1 ps2 : Int) (st : Dict) (domain validationName validation : String) :
    (_perform env psl ps1 st domain validationName validation).result =
      (_perform env psl ps2 st domain validationName validation).result ∧
    (_perform env psl ps1 st domain validationName validation).state =
      (_perform env psl ps2 st domain validationName validation).state ∧
    (_perform env psl ps1 st domain validationName validation).calls =
      (_perform env psl ps2 st domain validationName validation).calls ∧
    (_perform env psl ps1 st domain validationName validation).warnings =
      (if ps1 < 600 then [ttlWarning] else []) := by
  refine ⟨?_, ?_, ?_, ?_⟩ <;>
  · simp only [_perform]
    cases h : env.dns (challengeName domain)
    case canonical nm => simp only [toText]; split <;> rfl
    case noAnswer => rfl
    case nxdomain => rfl
    case failure e => rfl

/-- Claim C10: with a tracked record `(rid, root)` for the validation
value, `_cleanup` issues exactly the provider call
`remove_record(root, "TXT", validation)` — the stored provider record id
`rid` is never passed to the provider, and the `domain` argument is used
only inside the text of the not-deleted error message. -/
theorem C10_cleanup_depends_only_on_stored (env : Env) (st : Dict)
    (domain validationName validation : String) (rid : RecordId) (root : String)
    (h : dictLookup st validation = some (rid, root)) :
    _cleanup env st domain validationName validation =
      ⟨match env.provider.removeRecord root "TXT" validation with
        | .ok true => .ok ()
        | .ok false => .error (.pluginError (.pluginErrorMsg
            ("TXT for domain " ++ domain ++ " was not deleted")))
        | .error e => .error (.pluginError e),
        st, [.remove root "TXT" validation]⟩ := by
  unfold _cleanup
  rw [h]
  dsimp only
  cases hr : env.provider.removeRecord root "TXT" validation with
  | ok b => cases b <;> rfl
  | error e => rfl

/-- Witness for C10 at a concrete tracked record. -/
theorem C10_witness :
    dictLookup [("tokenABC", 7, "example.com")] "tokenABC" = some (7, "example.com") ∧
    _cleanup envIdent [("tokenABC", 7, "example.com")] "example.com"
        "_acme-challenge.example.com" "tokenABC" =
      ⟨.ok (), [("tokenABC", 7, "example.com")],
        [.remove "example.com" "TXT" "tokenABC"]⟩ :=
  ⟨rfl, C10_cleanup_depends_only_on_stored envIdent [("tokenABC", 7, "example.com")]
    "example.com" "_acme-challenge.example.com" "tokenABC" 7 "example.com" rfl⟩

/-- Claim C4: for a challenge name `"_acme-challenge." ++ d` with no
trailing root dots whose public-suffix split lands strictly inside the
label list (at least one label before the registrable label and a
nonempty suffix), the resolved `(zone, relativeName)` pair reconstructs
the challenge name: `relativeName ++ "." ++ zone = "_acme-challenge." ++ d`;
and concretely, `"_acme-challenge.www.example.co.uk"` splits into zone
`"example.co.uk"` and relative name `"_acme-challenge.www"`. -/
theorem C4_resolve_reconstruction (psl : List String) (d : String)
    (hnet : lenientNetloc ("_acme-challenge." ++ d) = "_acme-challenge." ++ d)
    (h2 : 2 ≤ suffixIndex psl (splitDots ("_acme-challenge." ++ d)))
    (hk : suffixIndex psl (splitDots ("_acme-challenge." ++ d)) <
      (splitDots ("_acme-challenge." ++ d)).length) :
    (resolveZoneRelative psl (("_acme-challenge." ++ d) ++ ".")).2 ++ "." ++
      (resolveZoneRelative psl (("_acme-challenge." ++ d) ++ ".")).1 =
      "_acme-challenge." ++ d ∧
    resolveZoneRelative pslFixture "_acme-challenge.www.example.co.uk." =
      ("example.co.uk", "_acme-challenge.www") := by
  constructor
  · simp only [resolveZoneRelative, tldexExtract]
    rw [lenientNetloc_append_dot, hnet]
    rw [if_pos h2,
      if_pos (show suffixIndex psl (splitDots ("_acme-challenge." ++ d)) ≠ 0 by omega),
      if_pos (show suffixIndex psl (splitDots ("_acme-challenge." ++ d)) ≠
        (splitDots ("_acme-challenge." ++ d)).length by omega)]
    rw [joinDots_take_getD_drop _ _ h2 hk, joinDots_splitDots]
  · decide

/-- Witness for C4 at `d = "www.example.co.uk"` over the fixture suffix
list. -/
theorem C4_witness :
    (resolveZoneRelative pslFixture (("_acme-challenge." ++ "www.example.co.uk") ++ ".")).2 ++
      "." ++
      (resolveZoneRelative pslFixture (("_acme-challenge." ++ "www.example.co.uk") ++ ".")).1 =
      "_acme-challenge." ++ "www.example.co.uk" :=
  (C4_resolve_reconstruction pslFixture "www.example.co.uk"
    (by decide) (by decide) (by decide)).1

/-- Claim C6: a successful `_perform` followed by `_cleanup` with the same
`(domain, validationName, validation)` triple makes exactly one create
call and then exactly one delete call, the create against the full record
name `relativeName ++ "." ++ zone` and the delete against the same zone,
both carrying the same validation value. -/
theorem C6_perform_then_cleanup (env : Env) (psl : List String) (ps : Int)
    (st : Dict) (domain validationName validation cn : String) (rid : RecordId)
    (hdns : env.dns (challengeName domain) = .canonical cn)
    (hadd : env.provider.addRecord
        ((resolveZoneRelative psl (cn ++ ".")).2 ++ "." ++
          (resolveZoneRelative psl (cn ++ ".")).1) "TXT" validation = .ok rid)
    (hrem : env.provider.removeRecord (resolveZoneRelative psl (cn ++ ".")).1
        "TXT" validation = .ok true) :
    (_perform env psl ps st domain validationName validation).result = .ok () ∧
    (_cleanup env (_perform env psl ps st domain validationName validation).state
        domain validationName validation).result = .ok () ∧
    (_perform env psl ps st domain validationName validation).calls ++
      (_cleanup env (_perform env psl ps st domain validationName validation).state
        domain validationName validation).calls =
      [.add ((resolveZoneRelative psl (cn ++ ".")).2 ++ "." ++
          (resolveZoneRelative psl (cn ++ ".")).1) "TXT" validation,
        .remove (resolveZoneRelative psl (cn ++ ".")).1 "TXT" validation] := by
  have hp : _perform env psl ps st domain validationName validation =
      ⟨.ok (), dictInsert st validation (rid, (resolveZoneRelative psl (cn ++ ".")).1),
        [.add ((resolveZoneRelative psl (cn ++ ".")).2 ++ "." ++
          (resolveZoneRelative psl (cn ++ ".")).1) "TXT" validation],
        if ps < 600 then [ttlWarning] else []⟩ := by
    simp only [_perform, hdns, toText]
    rw [hadd]
  have hc : _cleanup env
      (dictInsert st validation (rid, (resolveZoneRelative psl (cn ++ ".")).1))
      domain validationName validation =
      ⟨.ok (), dictInsert st validation (rid, (resolveZoneRelative psl (cn ++ ".")).1),
        [.remove (resolveZoneRelative psl (cn ++ ".")).1 "TXT" validation]⟩ := by
    unfold _cleanup
    rw [dictLookup_insert_self]
    dsimp only
    rw [hrem]
  rw [hp]
  dsimp only
  rw [hc]
  exact ⟨rfl, rfl, rfl⟩

/-- Witness for C6: identity DNS and an always-succeeding provider at
`"example.com"`. -/
theorem C6_witness :
    (_perform envIdent pslFixture 600 [] "example.com"
        "_acme-challenge.example.com" "tok").calls ++
      (_cleanup envIdent (_perform envIdent pslFixture 600 [] "example.com"
          "_acme-challenge.example.com" "tok").state
        "example.com" "_acme-challenge.example.com" "tok").calls =
      [.add "_acme-challenge.example.com" "TXT" "tok",
        .remove "example.com" "TXT" "tok"] := by
  have h := C6_perform_then_cleanup envIdent pslFixture 600 [] "example.com"
    "_acme-challenge.example.com" "tok" (challengeName "example.com") 7 rfl rfl rfl
  exact h.2.2.trans (by decide)

/-- Claim C7: if the provider create call raises `e`, `_perform` raises
`PluginError(e)` wrapping the original cause, makes exactly that one
provider call (no retry), and leaves the tracking map unchanged — no
entry is stored for the validation value. -/
theorem C7_provider_error_wrapped (env : Env) (psl : List String) (ps : Int)
    (st : Dict) (domain validationName validation cn : String) (e : PyExc)
    (hdns : env.dns (challengeName domain) = .canonical cn)
    (hadd : env.provider.addRecord
        ((resolveZoneRelative psl (cn ++ ".")).2 ++ "." ++
          (resolveZoneRelative psl (cn ++ ".")).1) "TXT" validation = .error e) :
    _perform env psl ps st domain validationName validation =
      ⟨.error (.pluginError e), st,
        [.add ((resolveZoneRelative psl (cn ++ ".")).2 ++ "." ++
          (resolveZoneRelative psl (cn ++ ".")).1) "TXT" validation],
        if ps < 600 then [ttlWarning] else []⟩ := by
  simp only [_perform, hdns, toText]
  rw [hadd]

/-- Witness for C7 with a provider whose `add_record` raises a rate-limit
error. -/
theorem C7_witness :
    _perform envAddFails pslFixture 600 [] "example.com"
        "_acme-challenge.example.com" "tok" =
      ⟨.error (.pluginError (.providerError "rate limit")), [],
        [.add "_acme-challenge.example.com" "TXT" "tok"], []⟩ := by
  have h := C7_provider_error_wrapped envAddFails pslFixture 600 [] "example.com"
    "_acme-challenge.example.com" "tok" (challengeName "example.com")
    (.providerError "rate limit") rfl rfl
  exact h.trans (by decide)

/-- Claim C9: a successful `_perform` keyed by `validation` keeps the
tracking map's keys duplicate-free, makes the stored entry for
`validation` the newly created record, and — when an entry for the same
validation value already exists — overwrites it in place without growing
the map. -/
theorem C9_tracking_overwrites (env : Env) (psl : List String) (ps : Int)
    (st : Dict) (domain validationName validation cn : String) (rid : RecordId)
    (hdns : env.dns (challengeName domain) = .canonical cn)
    (hadd : env.provider.addRecord
        ((resolveZoneRelative psl (cn ++ ".")).2 ++ "." ++
          (resolveZoneRelative psl (cn ++ ".")).1) "TXT" validation = .ok rid)
    (hnodup : (st.map (fun p => p.1)).Nodup) :
    ((_perform env psl ps st domain validationName validation).state.map
      (fun p => p.1)).Nodup ∧
    dictLookup (_perform env psl ps st domain validationName validation).state
      validation = some (rid, (resolveZoneRelative psl (cn ++ ".")).1) ∧
    (dictLookup st validation ≠ none →
      (_perform env psl ps st domain validationName validation).state.length =
        st.length) := by
  have hp : _perform env psl ps st domain validationName validation =
      ⟨.ok (), dictInsert st validation (rid, (resolveZoneRelative psl (cn ++ ".")).1),
        [.add ((resolveZoneRelative psl (cn ++ ".")).2 ++ "." ++
          (resolveZoneRelative psl (cn ++ ".")).1) "TXT" validation],
        if ps < 600 then [ttlWarning] else []⟩ := by
    simp only [_perform, hdns, toText]
    rw [hadd]
  rw [hp]
  dsimp only
  refine ⟨dictInsert_keys_nodup st validation _ hnodup,
    dictLookup_insert_self st validation _, ?_⟩
  intro hne
  cases hw : dictLookup st validation with
  | none => exact absurd hw hne
  | some w => exact dictInsert_length_of_mem st validation _ w hw

/-- Witness for C9: a second `_perform` for `"tok"` overwrites the stale
entry `("tok", 3, "old.example.net")` in place. -/
theorem C9_witness :
    dictLookup (_perform envIdent pslFixture 600 [("tok", 3, "old.example.net")]
        "example.com" "_acme-challenge.example.com" "tok").state "tok" =
      some (7, "example.com") ∧
    (_perform envIdent pslFixture 600 [("tok", 3, "old.example.net")]
        "example.com" "_acme-challenge.example.com" "tok").state.length = 1 := by
  have h := C9_tracking_overwrites envIdent pslFixture 600
    [("tok", 3, "old.example.net")] "example.com" "_acme-challenge.example.com"
    "tok" (challengeName "example.com") 7 rfl rfl (by decide)
  exact ⟨h.2.1.trans (by decide), (h.2.2 (by decide)).trans rfl⟩
